import Mathlib

/-!
# Shallow embedding of `src/windows/post_event.c` (libuiohook event injector)

This file embeds the Windows event-injection translation unit of libuiohook
(`hook_post_event` and its helpers) as executable Lean definitions and proves
properties about them.

Modelling conventions:
* Machine integers are modelled as `Nat` / `Int`.  The C `INPUT` union is an
  inductive with a keyboard arm (`KEYBDINPUT`) and a mouse arm (`MOUSEINPUT`).
  The signed payloads `dx`, `dy` and `mouseData` are modelled as `Int` (the C
  code stores signed expressions into `LONG`/`DWORD` fields; `SendInput`
  interprets the wheel / extra-button payload as the signed value, and within
  the reachable argument ranges of this file no 32-bit overflow occurs).
* The two external collaborators that are functions of the repository but not
  of this translation unit are parameters: `resolve` stands for
  `scancode_to_keycode` (from `input_helper.h`), and the outcomes of `calloc`
  and `SendInput` are the booleans `allocOk` / `sendOk`.
* `logger` calls are recorded as a list of structured `LogEntry` values, and
  the records handed to `SendInput` are collected in a list, so that "exactly
  one call" and "exactly one log line" are provable statements.
* C integer division truncates toward zero; it is embedded as `Int.tdiv`.
  Division by zero is undefined behaviour in C, so the coordinate conversion
  returns `Option Int`, and a hook invocation that reaches the division with a
  zero screen dimension yields `none` (undefined behaviour of the whole call).
-/

namespace LibUIOHook

/-! ## Constants

`KEYEVENTF_*` and `MAX_WINDOWS_COORD_VALUE` are defined in `post_event.c`
itself (fallback defines for buggy MinGW headers).  The `VK_*`,
`MOUSEEVENTF_*`, `WHEEL_DELTA`, `XBUTTON*` and `INPUT_*` constants come from
the Windows SDK headers (`winuser.h`), with their documented values. -/

def KEYEVENTF_EXTENDEDKEY : Nat := 0x0001
def KEYEVENTF_KEYUP : Nat := 0x0002
def KEYEVENTF_UNICODE : Nat := 0x0004
def KEYEVENTF_SCANCODE : Nat := 0x0008
def KEYEVENTF_KEYDOWN : Nat := 0x0000
def MAX_WINDOWS_COORD_VALUE : Nat := 65536

def VK_UP : Nat := 0x26
def VK_DOWN : Nat := 0x28
def VK_LEFT : Nat := 0x25
def VK_RIGHT : Nat := 0x27
def VK_HOME : Nat := 0x24
def VK_END : Nat := 0x23
def VK_PRIOR : Nat := 0x21
def VK_NEXT : Nat := 0x22
def VK_INSERT : Nat := 0x2D
def VK_DELETE : Nat := 0x2E

def MOUSEEVENTF_MOVE : Nat := 0x0001
def MOUSEEVENTF_LEFTDOWN : Nat := 0x0002
def MOUSEEVENTF_LEFTUP : Nat := 0x0004
def MOUSEEVENTF_RIGHTDOWN : Nat := 0x0008
def MOUSEEVENTF_RIGHTUP : Nat := 0x0010
def MOUSEEVENTF_MIDDLEDOWN : Nat := 0x0020
def MOUSEEVENTF_MIDDLEUP : Nat := 0x0040
def MOUSEEVENTF_XDOWN : Nat := 0x0080
def MOUSEEVENTF_XUP : Nat := 0x0100
def MOUSEEVENTF_WHEEL : Nat := 0x0800
def MOUSEEVENTF_ABSOLUTE : Nat := 0x8000

def WHEEL_DELTA : Int := 120
def XBUTTON1 : Int := 0x0001
def XBUTTON2 : Int := 0x0002

/-- Modelled from the spec: the `MOUSE_BUTTONn` ordinals of `uiohook.h`
(which is part of the repository but not under `src/`); the spec calls them
"button ordinal 1" through 5, numbered consecutively from 1. -/
def MOUSE_BUTTON1 : Nat := 1
def MOUSE_BUTTON2 : Nat := 2
def MOUSE_BUTTON3 : Nat := 3
def MOUSE_BUTTON4 : Nat := 4
def MOUSE_BUTTON5 : Nat := 5

/-- Modelled from the spec: the SHIFT bits of the modifier mask
(`MASK_SHIFT = MASK_SHIFT_L | MASK_SHIFT_R` in `uiohook.h`, which is part of
the repository but not under `src/`).  The spec only requires that the mask
is a bit-flag set "including at least SHIFT"; the claims below depend only on
whether `mask &&& MASK_SHIFT` is nonzero, never on the concrete bit value. -/
def MASK_SHIFT : Nat := 0x11

/-- The static extended-key lookup table of `post_event.c`
(`static UINT extend_key_table[10]`), in source order. -/
def extend_key_table : List Nat :=
  [VK_UP, VK_DOWN, VK_LEFT, VK_RIGHT, VK_HOME,
   VK_END, VK_PRIOR, VK_NEXT, VK_INSERT, VK_DELETE]

/-! ## Data model -/

/-- The event tags of `uiohook_event.type` that `hook_post_event` dispatches
on.  Any numeric tag other than the named ones is `other tag`; the claims do
not depend on the numeric values of the named tags, only on which `case`
label each one selects. -/
inductive EventType where
  | hookEnabled
  | hookDisabled
  | keyTyped
  | keyPressed
  | keyReleased
  | mouseClicked
  | mousePressed
  | mouseReleased
  | mouseMoved
  | mouseDragged
  | mouseWheel
  | other (tag : Nat)
deriving DecidableEq, Repr

/-- Modelled from the spec: the fields of `uiohook_event` (declared in
`uiohook.h`, which is part of the repository but not under `src/`) that
`hook_post_event` reads, flattened from the C data union: each keyboard
variant carries a `keycode` and the modifier `mask`; each mouse variant
carries absolute `x`, `y` coordinates and a `button` ordinal; wheel events
additionally carry `amount` (unsigned magnitude) and `rotation` (signed
direction). -/
structure UiohookEvent where
  type : EventType
  mask : Nat
  keycode : Nat
  x : Int
  y : Int
  button : Nat
  amount : Nat
  rotation : Int
deriving DecidableEq, Repr

/-- The `KEYBDINPUT` sub-record of the Windows `INPUT` structure, restricted
to the fields `hook_post_event` writes (all others stay at their
`calloc`-zero value). -/
structure KEYBDINPUT where
  wVk : Nat
  wScan : Nat
  dwFlags : Nat
  time : Nat
deriving DecidableEq, Repr

/-- The `MOUSEINPUT` sub-record of the Windows `INPUT` structure, restricted
to the fields `hook_post_event` writes.  `dx`, `dy` and `mouseData` carry the
signed values the C code computes before they are stored into the
`LONG`/`DWORD` fields. -/
structure MOUSEINPUT where
  dx : Int
  dy : Int
  mouseData : Int
  dwFlags : Nat
  time : Nat
deriving DecidableEq, Repr

/-- The `INPUT` union tagged by its `type` field
(`INPUT_KEYBOARD` / `INPUT_MOUSE`). -/
inductive InputRecord where
  | keyboard (ki : KEYBDINPUT)
  | mouse (mi : MOUSEINPUT)
deriving DecidableEq, Repr

/-- Severity levels used by `post_event.c`. -/
inductive LogLevel where
  | warn
  | error
deriving DecidableEq, Repr

/-- The four `logger(...)` call sites of `hook_post_event`, as structured
entries carrying the data that the corresponding format string interpolates. -/
inductive LogEntry where
  | warnScancodeLookup (keycode : Nat)
  | warnUnknownEventType (tag : Nat)
  | errorAllocFailure
  | errorSendInputFailure
deriving DecidableEq, Repr

/-- The severity each log call site uses. -/
def LogEntry.level : LogEntry → LogLevel
  | .warnScancodeLookup _ => .warn
  | .warnUnknownEventType _ => .warn
  | .errorAllocFailure => .error
  | .errorSendInputFailure => .error

/-- The observable outcome of one `hook_post_event` call: the log entries
emitted, in order, and the records passed to `SendInput`, in order. -/
structure HookResult where
  logs : List LogEntry
  calls : List InputRecord
deriving DecidableEq, Repr

/-- Windows interprets a keyboard record as a key-down exactly when the
KEYEVENTF_KEYUP bit is absent; the source pins this convention by defining
KEYEVENTF_KEYDOWN as 0x0000 (there is no dedicated key-down bit, so
"key-down flag set" means the KEYUP bit is clear). -/
def isKeyDownRecord (ki : KEYBDINPUT) : Prop :=
  ki.dwFlags &&& KEYEVENTF_KEYUP = 0

/-- A keyboard record the OS interprets as a key-up: the KEYEVENTF_KEYUP bit
is present. -/
def isKeyUpRecord (ki : KEYBDINPUT) : Prop :=
  ki.dwFlags &&& KEYEVENTF_KEYUP ≠ 0

/-! ## The injector -/

/-- `convert_to_relative_position` from `post_event.c`:

    int offset = (coordinate > 0 ? 1 : -1);
    return ((coordinate * MAX_WINDOWS_COORD_VALUE) / screen_size) + offset;

C signed division truncates toward zero (`Int.tdiv`); a zero `screen_size`
is undefined behaviour, embedded as `none`. -/
def convert_to_relative_position (coordinate : Int) (screen_size : Nat) : Option Int :=
  if screen_size = 0 then
    none
  else
    let offset : Int := if coordinate > 0 then 1 else -1
    some (Int.tdiv (coordinate * (MAX_WINDOWS_COORD_VALUE : Int)) (screen_size : Int) + offset)

/-- The extended-key `for` loop of `hook_post_event`, transcribed with its
guard exactly as written:

    for (unsigned int i = 0; i < sizeof(extend_key_table) / sizeof(UINT)
            && input->ki.wVk == extend_key_table[i]; i++) {
        input->ki.dwFlags |= KEYEVENTF_EXTENDEDKEY;
    }

The equality test `wVk == extend_key_table[i]` sits in the loop guard, so the
loop body runs while the current entry equals `wVk` and stops at the first
entry that differs. -/
def extendKeyLoop (wVk : Nat) : List Nat → Nat → Nat
  | [], dwFlags => dwFlags
  | k :: rest, dwFlags =>
    if wVk = k then extendKeyLoop wVk rest (dwFlags ||| KEYEVENTF_EXTENDEDKEY)
    else dwFlags

/-- First `switch` of `hook_post_event`: classify the event, allocate and
populate the base record (or log the allocation failure / ignore /
unknown-tag warning).  Returns `none` for undefined behaviour (division by a
zero screen dimension), otherwise the optional record plus any log entries
emitted so far. -/
def classifyAndBuild (resolve : Nat → Nat) (allocOk : Bool)
    (screen_width screen_height : Nat) (event : UiohookEvent) :
    Option (Option InputRecord × List LogEntry) :=
  match event.type with
  | .keyPressed | .keyReleased =>
    if allocOk then
      let wVk := resolve event.keycode % 65536
      let logs := if wVk = 0 then [LogEntry.warnScancodeLookup event.keycode] else []
      let dwFlags :=
        if event.mask &&& MASK_SHIFT ≠ 0 then extendKeyLoop wVk extend_key_table 0 else 0
      some (some (.keyboard ⟨wVk, 0, dwFlags, 0⟩), logs)
    else
      some (none, [LogEntry.errorAllocFailure])
  | .mousePressed | .mouseReleased | .mouseWheel | .mouseMoved | .mouseDragged =>
    if allocOk then
      match convert_to_relative_position event.x screen_width,
            convert_to_relative_position event.y screen_height with
      | some dx, some dy => some (some (.mouse ⟨dx, dy, 0, 0, 0⟩), [])
      | _, _ => none
    else
      some (none, [LogEntry.errorAllocFailure])
  | .mouseClicked | .keyTyped | .hookEnabled | .hookDisabled =>
    some (none, [])
  | .other tag =>
    some (none, [LogEntry.warnUnknownEventType tag])

/-- The shared extra-button fallback of the second `switch` (identical for
press and release): the outer `default` ORs the generic X-transition flag a
second time, then the inner `switch` selects `XBUTTON1`, `XBUTTON2`, or
`button - 3`. -/
def applyExtraButton (button : Nat) (xFlag : Nat) (mi : MOUSEINPUT) : MOUSEINPUT :=
  let mi := { mi with dwFlags := mi.dwFlags ||| xFlag }
  if button = MOUSE_BUTTON4 then { mi with mouseData := XBUTTON1 }
  else if button = MOUSE_BUTTON5 then { mi with mouseData := XBUTTON2 }
  else { mi with mouseData := (button : Int) - 3 }

/-- Second `switch` of `hook_post_event`: refine the allocated record's flag
bits (and `mouseData`) according to the event tag.  In C both switches match
on `event->type`, so tags absent from the second switch leave the record
unchanged. -/
def applyEventFlags (event : UiohookEvent) (input : InputRecord) : InputRecord :=
  match event.type, input with
  | .keyPressed, .keyboard ki =>
    .keyboard { ki with dwFlags := ki.dwFlags ||| KEYEVENTF_KEYDOWN }
  | .keyReleased, .keyboard ki =>
    .keyboard { ki with dwFlags := ki.dwFlags ||| KEYEVENTF_KEYUP }
  | .mousePressed, .mouse mi =>
    let mi := { mi with dwFlags := mi.dwFlags ||| MOUSEEVENTF_XDOWN }
    if event.button = MOUSE_BUTTON1 then
      .mouse { mi with dwFlags := mi.dwFlags ||| MOUSEEVENTF_LEFTDOWN }
    else if event.button = MOUSE_BUTTON2 then
      .mouse { mi with dwFlags := mi.dwFlags ||| MOUSEEVENTF_RIGHTDOWN }
    else if event.button = MOUSE_BUTTON3 then
      .mouse { mi with dwFlags := mi.dwFlags ||| MOUSEEVENTF_MIDDLEDOWN }
    else
      .mouse (applyExtraButton event.button MOUSEEVENTF_XDOWN mi)
  | .mouseReleased, .mouse mi =>
    let mi := { mi with dwFlags := mi.dwFlags ||| MOUSEEVENTF_XUP }
    if event.button = MOUSE_BUTTON1 then
      .mouse { mi with dwFlags := mi.dwFlags ||| MOUSEEVENTF_LEFTUP }
    else if event.button = MOUSE_BUTTON2 then
      .mouse { mi with dwFlags := mi.dwFlags ||| MOUSEEVENTF_RIGHTUP }
    else if event.button = MOUSE_BUTTON3 then
      .mouse { mi with dwFlags := mi.dwFlags ||| MOUSEEVENTF_MIDDLEUP }
    else
      .mouse (applyExtraButton event.button MOUSEEVENTF_XUP mi)
  | .mouseWheel, .mouse mi =>
    .mouse { mi with
      dwFlags := mi.dwFlags ||| MOUSEEVENTF_WHEEL,
      mouseData := (event.amount : Int) * event.rotation * WHEEL_DELTA }
  | .mouseDragged, .mouse mi
  | .mouseMoved, .mouse mi =>
    .mouse { mi with dwFlags := mi.dwFlags ||| (MOUSEEVENTF_ABSOLUTE ||| MOUSEEVENTF_MOVE) }
  | _, input => input

/-- `hook_post_event` from `post_event.c`, end to end: classification and
base-record construction, flag refinement, then the single `SendInput`
submission (whose failure only adds an ERROR log entry).  `resolve` stands
for the external `scancode_to_keycode`, `allocOk` for the outcome of
`calloc`, `sendOk` for the outcome of `SendInput`; the screen dimensions are
the fresh `GetSystemMetrics` results.  `none` is undefined behaviour
(division by a zero screen dimension). -/
def hook_post_event (resolve : Nat → Nat) (allocOk sendOk : Bool)
    (screen_width screen_height : Nat) (event : UiohookEvent) : Option HookResult :=
  match classifyAndBuild resolve allocOk screen_width screen_height event with
  | none => none
  | some (none, logs) => some ⟨logs, []⟩
  | some (some input, logs) =>
    let input := applyEventFlags event input
    let sendLogs := if sendOk then [] else [LogEntry.errorSendInputFailure]
    some ⟨logs ++ sendLogs, [input]⟩

/-! ## Shape lemmas

The loop result, and the overall shape of a hook invocation for each family
of event tags.  These are shared helper lemmas; the per-claim theorems below
build on them. -/

theorem extendKeyLoop_one (wVk : Nat) : ∀ l : List Nat, extendKeyLoop wVk l 1 = 1
  | [] => rfl
  | k :: rest => by
    rw [extendKeyLoop]
    have h1 : (1 ||| KEYEVENTF_EXTENDEDKEY) = 1 := by decide
    split
    · rw [h1]; exact extendKeyLoop_one wVk rest
    · rfl

theorem extendKeyLoop_zero (wVk : Nat) (l : List Nat) :
    extendKeyLoop wVk l 0 = 0 ∨ extendKeyLoop wVk l 0 = 1 := by
  cases l with
  | nil => exact Or.inl rfl
  | cons k rest =>
    rw [extendKeyLoop]
    have h1 : (0 ||| KEYEVENTF_EXTENDEDKEY) = 1 := by decide
    split
    · rw [h1]; exact Or.inr (extendKeyLoop_one wVk rest)
    · exact Or.inl rfl

theorem convert_some {c : Int} {s : Nat} (hs : s ≠ 0) :
    convert_to_relative_position c s =
      some (Int.tdiv (c * 65536) (s : Int) + if 0 < c then 1 else -1) := by
  simp [convert_to_relative_position, hs, MAX_WINDOWS_COORD_VALUE]

theorem hook_keyPressed_eq (resolve : Nat → Nat) (sendOk : Bool) (w h : Nat)
    (e : UiohookEvent) (he : e.type = .keyPressed) :
    hook_post_event resolve true sendOk w h e =
      some ⟨(if resolve e.keycode % 65536 = 0 then [LogEntry.warnScancodeLookup e.keycode]
             else []) ++
            (if sendOk then [] else [LogEntry.errorSendInputFailure]),
            [InputRecord.keyboard ⟨resolve e.keycode % 65536, 0,
              (if e.mask &&& MASK_SHIFT ≠ 0 then
                 extendKeyLoop (resolve e.keycode % 65536) extend_key_table 0
               else 0) ||| KEYEVENTF_KEYDOWN, 0⟩]⟩ := by
  simp only [hook_post_event, classifyAndBuild, applyEventFlags, he, if_true]

theorem hook_keyReleased_eq (resolve : Nat → Nat) (sendOk : Bool) (w h : Nat)
    (e : UiohookEvent) (he : e.type = .keyReleased) :
    hook_post_event resolve true sendOk w h e =
      some ⟨(if resolve e.keycode % 65536 = 0 then [LogEntry.warnScancodeLookup e.keycode]
             else []) ++
            (if sendOk then [] else [LogEntry.errorSendInputFailure]),
            [InputRecord.keyboard ⟨resolve e.keycode % 65536, 0,
              (if e.mask &&& MASK_SHIFT ≠ 0 then
                 extendKeyLoop (resolve e.keycode % 65536) extend_key_table 0
               else 0) ||| KEYEVENTF_KEYUP, 0⟩]⟩ := by
  simp only [hook_post_event, classifyAndBuild, applyEventFlags, he, if_true]

theorem hook_mouse_eq (resolve : Nat → Nat) (sendOk : Bool) (w h : Nat)
    (e : UiohookEvent) (dx dy : Int)
    (hmt : e.type = .mousePressed ∨ e.type = .mouseReleased ∨ e.type = .mouseWheel ∨
           e.type = .mouseMoved ∨ e.type = .mouseDragged)
    (hdx : convert_to_relative_position e.x w = some dx)
    (hdy : convert_to_relative_position e.y h = some dy) :
    hook_post_event resolve true sendOk w h e =
      some ⟨(if sendOk then [] else [LogEntry.errorSendInputFailure]),
            [applyEventFlags e (InputRecord.mouse ⟨dx, dy, 0, 0, 0⟩)]⟩ := by
  rcases hmt with he | he | he | he | he <;>
    simp only [hook_post_event, classifyAndBuild, he, if_true, hdx, hdy, List.nil_append]


/-! ## Claim C1: the extended-key flag -/

/-- C1: the claim states that for key press/release events the
KEYEVENTF_EXTENDEDKEY flag is set whenever the SHIFT modifier is present and
the resolved virtual key is any member of the ten-entry extended-key table.
The code contradicts this: the membership test sits in the for-loop guard
(`i < 10 && wVk == extend_key_table[i]`), so the loop stops at the first
table entry that differs from the key and only VK_UP (the first entry) ever
receives the flag.  At the failing input below — a KeyPressed event with the
SHIFT mask whose keycode resolves to VK_DOWN, a table member — the submitted
record has dwFlags = 0, i.e. the extended-key bit 0x0001 is absent. -/
theorem C1_extended_key_flag_missing_for_vk_down :
    VK_DOWN ∈ extend_key_table ∧
    MASK_SHIFT &&& MASK_SHIFT ≠ 0 ∧
    hook_post_event (fun _ => VK_DOWN) true true 100 100
        ⟨.keyPressed, MASK_SHIFT, 57416, 0, 0, 0, 0, 0⟩ =
      some ⟨[], [InputRecord.keyboard ⟨VK_DOWN, 0, 0, 0⟩]⟩ := by
  refine ⟨by decide, by decide, ?_⟩
  decide

/-! ## Claim C2: coordinate normalization -/

/-- C2 counterexample: the claim says a negative coordinate yields
floor(c*65536/s) - 1.  At c = -1, s = 3 the code computes the C (truncating)
division -65536 / 3 = -21845 and adds the offset -1, giving -21846 — which is
floor(-65536/3) itself, not floor(-65536/3) - 1 = -21847. -/
theorem C2_counterexample :
    convert_to_relative_position (-1) 3 = some (-21846) ∧
    convert_to_relative_position (-1) 3 ≠ some (Int.fdiv ((-1) * 65536) 3 - 1) := by
  constructor
  · decide
  · decide

/-- C2 (amended): for screen size s > 0 the normalization returns
floor(c*65536/s) + 1 for positive c (as claimed), but for negative c it
returns -floor(|c|*65536/s) - 1, i.e. the C division truncates toward zero
before the -1 offset is added; this equals floor(c*65536/s) - 1 only when s
divides c*65536 and floor(c*65536/s) otherwise. -/
theorem C2_normalization_amended (c : Int) (s : Nat) (hs : 0 < s) :
    (0 < c → convert_to_relative_position c s =
        some (Int.fdiv (c * 65536) (s : Int) + 1)) ∧
    (c < 0 → convert_to_relative_position c s =
        some (-(Int.fdiv (-c * 65536) (s : Int)) - 1)) := by
  have hs0 : s ≠ 0 := Nat.pos_iff_ne_zero.mp hs
  have hsI : (0 : Int) ≤ (s : Int) := Int.natCast_nonneg s
  constructor
  · intro hc
    rw [convert_some hs0, if_pos hc]
    have ht : Int.tdiv (c * 65536) (s : Int) = Int.fdiv (c * 65536) (s : Int) :=
      (Int.fdiv_eq_tdiv (by positivity) hsI).symm
    rw [ht]
  · intro hc
    rw [convert_some hs0, if_neg (by omega)]
    have hneg : c * 65536 = -(-c * 65536) := by ring
    have hnn : (0 : Int) ≤ -c * 65536 := by
      have : (0 : Int) ≤ -c := by omega
      positivity
    rw [hneg, Int.neg_tdiv, ← Int.fdiv_eq_tdiv hnn hsI]
    ring_nf

/-- C2 witness: the amended theorem applied at c = 5, s = 3 (positive branch)
and at c = -1, s = 3 (negative branch). -/
theorem C2_witness :
    convert_to_relative_position 5 3 = some (Int.fdiv (5 * 65536) (3 : Int) + 1) ∧
    convert_to_relative_position (-1) 3 =
      some (-(Int.fdiv (-(-1) * 65536) (3 : Int)) - 1) :=
  ⟨(C2_normalization_amended 5 3 (by decide)).1 (by decide),
   (C2_normalization_amended (-1) 3 (by decide)).2 (by decide)⟩


/-! ## Claim C3: key-down / key-up flags -/

theorem builtKeyFlags_zero_or_one (wVk mask : Nat) :
    (if mask &&& MASK_SHIFT ≠ 0 then extendKeyLoop wVk extend_key_table 0 else 0) = 0 ∨
    (if mask &&& MASK_SHIFT ≠ 0 then extendKeyLoop wVk extend_key_table 0 else 0) = 1 := by
  split
  · exact extendKeyLoop_zero wVk extend_key_table
  · exact Or.inl rfl

/-- C3: every KeyPressed event yields a submitted keyboard record that the OS
reads as key-down (the source ORs in KEYEVENTF_KEYDOWN = 0x0000, which leaves
the KEYUP bit clear — that is the Windows encoding of the key-down flag), and
every KeyReleased event yields one with the key-up flag set; the two
interpretations are mutually exclusive, and exactly one of them holds of
every keyboard record. -/
theorem C3_keydown_keyup_flags (resolve : Nat → Nat) (sendOk : Bool) (w h : Nat)
    (e : UiohookEvent) (hk : e.type = .keyPressed ∨ e.type = .keyReleased) :
    (∃ r ki, hook_post_event resolve true sendOk w h e = some r ∧
      r.calls = [InputRecord.keyboard ki] ∧
      (e.type = .keyPressed → isKeyDownRecord ki) ∧
      (e.type = .keyReleased → isKeyUpRecord ki)) ∧
    (∀ ki : KEYBDINPUT, isKeyDownRecord ki ↔ ¬ isKeyUpRecord ki) := by
  constructor
  · rcases hk with he | he
    · rw [hook_keyPressed_eq resolve sendOk w h e he]
      refine ⟨_, _, rfl, rfl, fun _ => ?_, fun hcontra => ?_⟩
      · show ((if e.mask &&& MASK_SHIFT ≠ 0 then
            extendKeyLoop (resolve e.keycode % 65536) extend_key_table 0 else 0) |||
            KEYEVENTF_KEYDOWN) &&& KEYEVENTF_KEYUP = 0
        rcases builtKeyFlags_zero_or_one (resolve e.keycode % 65536) e.mask with h0 | h0 <;>
          rw [h0] <;> decide
      · rw [he] at hcontra
        exact absurd hcontra (by simp)
    · rw [hook_keyReleased_eq resolve sendOk w h e he]
      refine ⟨_, _, rfl, rfl, fun hcontra => ?_, fun _ => ?_⟩
      · rw [he] at hcontra
        exact absurd hcontra (by simp)
      · show ((if e.mask &&& MASK_SHIFT ≠ 0 then
            extendKeyLoop (resolve e.keycode % 65536) extend_key_table 0 else 0) |||
            KEYEVENTF_KEYUP) &&& KEYEVENTF_KEYUP ≠ 0
        rcases builtKeyFlags_zero_or_one (resolve e.keycode % 65536) e.mask with h0 | h0 <;>
          rw [h0] <;> decide
  · intro ki
    simp [isKeyDownRecord, isKeyUpRecord]

/-- C3 witness: the theorem applied to a concrete KeyPressed event. -/
theorem C3_witness :
    ∃ r ki, hook_post_event (fun k => k) true true 100 100
        ⟨.keyPressed, 0, 65, 0, 0, 0, 0, 0⟩ = some r ∧
      r.calls = [InputRecord.keyboard ki] ∧ isKeyDownRecord ki := by
  obtain ⟨⟨r, ki, h1, h2, h3, _⟩, _⟩ :=
    C3_keydown_keyup_flags (fun k => k) true 100 100
      ⟨.keyPressed, 0, 65, 0, 0, 0, 0, 0⟩ (Or.inl rfl)
  exact ⟨r, ki, h1, h2, h3 rfl⟩

/-! ## Claim C6: ignored and unknown event tags -/

/-- C6: for MouseClicked, KeyTyped, HookEnabled and HookDisabled events no
native record is built, SendInput is never called and nothing is logged; for
any unrecognized tag no record is built, SendInput is never called, and
exactly one WARN entry carrying the offending tag value is logged. -/
theorem C6_ignored_and_unknown_tags (resolve : Nat → Nat) (allocOk sendOk : Bool)
    (w h : Nat) (e : UiohookEvent) :
    ((e.type = .mouseClicked ∨ e.type = .keyTyped ∨ e.type = .hookEnabled ∨
        e.type = .hookDisabled) →
      hook_post_event resolve allocOk sendOk w h e = some ⟨[], []⟩) ∧
    (∀ tag : Nat, e.type = .other tag →
      hook_post_event resolve allocOk sendOk w h e =
        some ⟨[LogEntry.warnUnknownEventType tag], []⟩) := by
  constructor
  · rintro (he | he | he | he) <;> simp [hook_post_event, classifyAndBuild, he]
  · intro tag he
    simp [hook_post_event, classifyAndBuild, he]

/-- C6 witness: the theorem applied to a concrete MouseClicked event (no call,
no log) and to a concrete unrecognized tag 0x2F (one WARN carrying 0x2F). -/
theorem C6_witness :
    hook_post_event (fun k => k) true true 100 100 ⟨.mouseClicked, 0, 0, 1, 2, 1, 0, 0⟩ =
        some ⟨[], []⟩ ∧
    hook_post_event (fun k => k) true true 100 100 ⟨.other 0x2F, 0, 0, 1, 2, 1, 0, 0⟩ =
        some ⟨[LogEntry.warnUnknownEventType 0x2F], []⟩ :=
  ⟨(C6_ignored_and_unknown_tags (fun k => k) true true 100 100
      ⟨.mouseClicked, 0, 0, 1, 2, 1, 0, 0⟩).1 (Or.inl rfl),
   (C6_ignored_and_unknown_tags (fun k => k) true true 100 100
      ⟨.other 0x2F, 0, 0, 1, 2, 1, 0, 0⟩).2 0x2F rfl⟩

/-! ## Claim C7: unresolvable keycode -/

/-- C7: when the keycode resolver returns the null sentinel 0 for a
KeyPressed or KeyReleased event, the injector emits exactly one WARN entry
(carrying the original keycode) and still submits exactly one record to
SendInput, with the native virtual-key field equal to zero. -/
theorem C7_unresolvable_keycode (resolve : Nat → Nat) (sendOk : Bool) (w h : Nat)
    (e : UiohookEvent) (hk : e.type = .keyPressed ∨ e.type = .keyReleased)
    (hz : resolve e.keycode = 0) :
    ∃ r ki, hook_post_event resolve true sendOk w h e = some r ∧
      r.calls = [InputRecord.keyboard ki] ∧ ki.wVk = 0 ∧
      r.logs.filter (fun l => l.level == LogLevel.warn) =
        [LogEntry.warnScancodeLookup e.keycode] := by
  have h0 : resolve e.keycode % 65536 = 0 := by simp [hz]
  rcases hk with he | he
  · rw [hook_keyPressed_eq resolve sendOk w h e he]
    refine ⟨_, _, rfl, rfl, h0, ?_⟩
    rw [if_pos h0]
    cases sendOk <;> simp [LogEntry.level]
  · rw [hook_keyReleased_eq resolve sendOk w h e he]
    refine ⟨_, _, rfl, rfl, h0, ?_⟩
    rw [if_pos h0]
    cases sendOk <;> simp [LogEntry.level]

/-- C7 witness: the theorem applied to a concrete KeyPressed event whose
keycode the resolver maps to 0. -/
theorem C7_witness :
    ∃ r ki, hook_post_event (fun _ => 0) true true 100 100
        ⟨.keyPressed, 0, 57416, 0, 0, 0, 0, 0⟩ = some r ∧
      r.calls = [InputRecord.keyboard ki] ∧ ki.wVk = 0 ∧
      r.logs.filter (fun l => l.level == LogLevel.warn) =
        [LogEntry.warnScancodeLookup 57416] :=
  C7_unresolvable_keycode (fun _ => 0) true 100 100
    ⟨.keyPressed, 0, 57416, 0, 0, 0, 0, 0⟩ (Or.inl rfl) rfl

/-! ## Claim C8: unguarded division by the screen dimension -/

/-- C8: the coordinate conversion divides by the queried screen dimension
with no zero guard — its division branch is well-defined exactly when the
dimension is nonzero — and the injector performs no check before dividing: a
mouse-family event reaching the conversion with a zero screen width makes
the whole call undefined behaviour (modelled as none). -/
theorem C8_division_unguarded (c : Int) (s : Nat) :
    ((convert_to_relative_position c s).isSome ↔ s ≠ 0) ∧
    (∀ (resolve : Nat → Nat) (sendOk : Bool) (hdim : Nat) (e : UiohookEvent),
      (e.type = .mousePressed ∨ e.type = .mouseReleased ∨ e.type = .mouseWheel ∨
       e.type = .mouseMoved ∨ e.type = .mouseDragged) →
      hook_post_event resolve true sendOk 0 hdim e = none) := by
  constructor
  · by_cases hs : s = 0 <;> simp [convert_to_relative_position, hs]
  · intro resolve sendOk hdim e he
    have hx : convert_to_relative_position e.x 0 = none := by
      simp [convert_to_relative_position]
    rcases he with he | he | he | he | he <;>
      cases hy : convert_to_relative_position e.y hdim <;>
        simp [hook_post_event, classifyAndBuild, he, hx, hy]

/-- C8 witness: the theorem applied at coordinate 7, screen size 0 (the
conversion is undefined) and to a concrete MouseMoved event injected with a
zero screen width (the whole call is undefined). -/
theorem C8_witness :
    ¬ (convert_to_relative_position 7 0).isSome ∧
    hook_post_event (fun k => k) true true 0 100 ⟨.mouseMoved, 0, 0, 5, 6, 0, 0, 0⟩ =
      none :=
  ⟨fun hsome => ((C8_division_unguarded 7 0).1.mp hsome) rfl,
   (C8_division_unguarded 7 0).2 (fun k => k) true 100
     ⟨.mouseMoved, 0, 0, 5, 6, 0, 0, 0⟩ (Or.inr (Or.inr (Or.inr (Or.inl rfl))))⟩

/-! ## Claim C9: allocation failure -/

/-- C9: for every keyboard or mouse event for which the allocation of the
native record fails, the injector logs exactly one ERROR entry, never calls
SendInput, and returns with no other effect. -/
theorem C9_allocation_failure (resolve : Nat → Nat) (sendOk : Bool) (w h : Nat)
    (e : UiohookEvent)
    (hk : e.type = .keyPressed ∨ e.type = .keyReleased ∨ e.type = .mousePressed ∨
          e.type = .mouseReleased ∨ e.type = .mouseWheel ∨ e.type = .mouseMoved ∨
          e.type = .mouseDragged) :
    hook_post_event resolve false sendOk w h e =
      some ⟨[LogEntry.errorAllocFailure], []⟩ := by
  rcases hk with he | he | he | he | he | he | he <;>
    simp [hook_post_event, classifyAndBuild, he]

/-- C9 witness: the theorem applied to a concrete KeyPressed event with a
failed allocation. -/
theorem C9_witness :
    hook_post_event (fun k => k) false true 100 100 ⟨.keyPressed, 0, 65, 0, 0, 0, 0, 0⟩ =
      some ⟨[LogEntry.errorAllocFailure], []⟩ :=
  C9_allocation_failure (fun k => k) true 100 100
    ⟨.keyPressed, 0, 65, 0, 0, 0, 0, 0⟩ (Or.inl rfl)


/-! ## Claims C4, C5, C10: mouse records -/

theorem applyEventFlags_pressed (e : UiohookEvent) (mi : MOUSEINPUT)
    (he : e.type = .mousePressed) :
    applyEventFlags e (.mouse mi) =
      (let mi2 : MOUSEINPUT := { mi with dwFlags := mi.dwFlags ||| MOUSEEVENTF_XDOWN }
       if e.button = MOUSE_BUTTON1 then
         InputRecord.mouse { mi2 with dwFlags := mi2.dwFlags ||| MOUSEEVENTF_LEFTDOWN }
       else if e.button = MOUSE_BUTTON2 then
         InputRecord.mouse { mi2 with dwFlags := mi2.dwFlags ||| MOUSEEVENTF_RIGHTDOWN }
       else if e.button = MOUSE_BUTTON3 then
         InputRecord.mouse { mi2 with dwFlags := mi2.dwFlags ||| MOUSEEVENTF_MIDDLEDOWN }
       else
         InputRecord.mouse (applyExtraButton e.button MOUSEEVENTF_XDOWN mi2)) := by
  simp only [applyEventFlags, he]

theorem applyEventFlags_released (e : UiohookEvent) (mi : MOUSEINPUT)
    (he : e.type = .mouseReleased) :
    applyEventFlags e (.mouse mi) =
      (let mi2 : MOUSEINPUT := { mi with dwFlags := mi.dwFlags ||| MOUSEEVENTF_XUP }
       if e.button = MOUSE_BUTTON1 then
         InputRecord.mouse { mi2 with dwFlags := mi2.dwFlags ||| MOUSEEVENTF_LEFTUP }
       else if e.button = MOUSE_BUTTON2 then
         InputRecord.mouse { mi2 with dwFlags := mi2.dwFlags ||| MOUSEEVENTF_RIGHTUP }
       else if e.button = MOUSE_BUTTON3 then
         InputRecord.mouse { mi2 with dwFlags := mi2.dwFlags ||| MOUSEEVENTF_MIDDLEUP }
       else
         InputRecord.mouse (applyExtraButton e.button MOUSEEVENTF_XUP mi2)) := by
  simp only [applyEventFlags, he]

theorem applyEventFlags_wheel (e : UiohookEvent) (mi : MOUSEINPUT)
    (he : e.type = .mouseWheel) :
    applyEventFlags e (.mouse mi) =
      InputRecord.mouse { mi with
        dwFlags := mi.dwFlags ||| MOUSEEVENTF_WHEEL,
        mouseData := (e.amount : Int) * e.rotation * WHEEL_DELTA } := by
  simp only [applyEventFlags, he]

/-- C4: for every mouse press or release the generic extra-button transition
flag (XDOWN / XUP) is set unconditionally; button ordinal 1 additionally sets
the left transition flag, 2 the right one, 3 the middle one; ordinal 4 sets
the auxiliary data field to XBUTTON1, ordinal 5 to XBUTTON2, and every
ordinal greater than 5 sets the auxiliary data to ordinal - 3. -/
theorem C4_button_mapping (resolve : Nat → Nat) (sendOk : Bool) (w h : Nat)
    (e : UiohookEvent) (hw : w ≠ 0) (hh : h ≠ 0)
    (hk : e.type = .mousePressed ∨ e.type = .mouseReleased) :
    ∃ r mi, hook_post_event resolve true sendOk w h e = some r ∧
      r.calls = [InputRecord.mouse mi] ∧
      mi.dwFlags &&&
        (if e.type = .mousePressed then MOUSEEVENTF_XDOWN else MOUSEEVENTF_XUP) ≠ 0 ∧
      (e.button = 1 → mi.dwFlags &&&
        (if e.type = .mousePressed then MOUSEEVENTF_LEFTDOWN else MOUSEEVENTF_LEFTUP) ≠ 0) ∧
      (e.button = 2 → mi.dwFlags &&&
        (if e.type = .mousePressed then MOUSEEVENTF_RIGHTDOWN else MOUSEEVENTF_RIGHTUP) ≠ 0) ∧
      (e.button = 3 → mi.dwFlags &&&
        (if e.type = .mousePressed then MOUSEEVENTF_MIDDLEDOWN else MOUSEEVENTF_MIDDLEUP) ≠ 0) ∧
      (e.button = 4 → mi.mouseData = XBUTTON1) ∧
      (e.button = 5 → mi.mouseData = XBUTTON2) ∧
      (5 < e.button → mi.mouseData = (e.button : Int) - 3) := by
  obtain ⟨dx, hdx⟩ : ∃ v, convert_to_relative_position e.x w = some v :=
    ⟨_, convert_some hw⟩
  obtain ⟨dy, hdy⟩ : ∃ v, convert_to_relative_position e.y h = some v :=
    ⟨_, convert_some hh⟩
  rcases hk with he | he <;>
    [rw [hook_mouse_eq resolve sendOk w h e _ _ (Or.inl he) hdx hdy,
       applyEventFlags_pressed e _ he];
     rw [hook_mouse_eq resolve sendOk w h e _ _ (Or.inr (Or.inl he)) hdx hdy,
       applyEventFlags_released e _ he]] <;>
  simp only [he, MOUSE_BUTTON1, MOUSE_BUTTON2, MOUSE_BUTTON3, MOUSE_BUTTON4,
    MOUSE_BUTTON5, applyExtraButton, reduceIte] <;>
  · by_cases hb1 : e.button = 1
    · rw [if_pos hb1]
      refine ⟨_, _, rfl, rfl, ?_, ?_, ?_, ?_, ?_, ?_, ?_⟩ <;>
        first
          | (dsimp only <;> decide)
          | (intro hc; exact absurd hc (by omega))
          | (intro hc; dsimp only <;> (first | decide | rfl))
    · rw [if_neg hb1]
      by_cases hb2 : e.button = 2
      · rw [if_pos hb2]
        refine ⟨_, _, rfl, rfl, ?_, ?_, ?_, ?_, ?_, ?_, ?_⟩ <;>
          first
            | (dsimp only <;> decide)
            | (intro hc; exact absurd hc (by omega))
            | (intro hc; dsimp only <;> (first | decide | rfl))
      · rw [if_neg hb2]
        by_cases hb3 : e.button = 3
        · rw [if_pos hb3]
          refine ⟨_, _, rfl, rfl, ?_, ?_, ?_, ?_, ?_, ?_, ?_⟩ <;>
            first
              | (dsimp only <;> decide)
              | (intro hc; exact absurd hc (by omega))
              | (intro hc; dsimp only <;> (first | decide | rfl))
        · rw [if_neg hb3]
          by_cases hb4 : e.button = 4
          · rw [if_pos hb4]
            refine ⟨_, _, rfl, rfl, ?_, ?_, ?_, ?_, ?_, ?_, ?_⟩ <;>
              first
                | (dsimp only <;> decide)
                | (intro hc; exact absurd hc (by omega))
                | (intro hc; dsimp only <;> (first | decide | rfl))
          · rw [if_neg hb4]
            by_cases hb5 : e.button = 5
            · rw [if_pos hb5]
              refine ⟨_, _, rfl, rfl, ?_, ?_, ?_, ?_, ?_, ?_, ?_⟩ <;>
                first
                  | (dsimp only <;> decide)
                  | (intro hc; exact absurd hc (by omega))
                  | (intro hc; dsimp only <;> (first | decide | rfl))
            · rw [if_neg hb5]
              refine ⟨_, _, rfl, rfl, ?_, ?_, ?_, ?_, ?_, ?_, ?_⟩ <;>
                first
                  | (dsimp only <;> decide)
                  | (intro hc; exact absurd hc (by omega))
                  | (intro hc; dsimp only <;> (first | decide | rfl))

/-- C4 witness: the theorem applied to a concrete MousePressed event with
button ordinal 7; the auxiliary data is 7 - 3 = 4. -/
theorem C4_witness :
    ∃ r mi, hook_post_event (fun k => k) true true 100 100
        ⟨.mousePressed, 0, 0, 10, 20, 7, 0, 0⟩ = some r ∧
      r.calls = [InputRecord.mouse mi] ∧
      mi.dwFlags &&& MOUSEEVENTF_XDOWN ≠ 0 ∧ mi.mouseData = 4 := by
  obtain ⟨r, mi, h1, h2, h3, _, _, _, _, _, h9⟩ :=
    C4_button_mapping (fun k => k) true 100 100 ⟨.mousePressed, 0, 0, 10, 20, 7, 0, 0⟩
      (by decide) (by decide) (Or.inl rfl)
  refine ⟨r, mi, h1, h2, by simpa using h3, ?_⟩
  rw [h9 (by decide)]
  decide

/-- C5: for every MouseWheel event the wheel-scroll flag is set and the
auxiliary data field equals amount * rotation * WHEEL_DELTA (the OS one-notch
constant 120), preserving sign. -/
theorem C5_wheel_scroll (resolve : Nat → Nat) (sendOk : Bool) (w h : Nat)
    (e : UiohookEvent) (hw : w ≠ 0) (hh : h ≠ 0) (he : e.type = .mouseWheel) :
    ∃ r mi, hook_post_event resolve true sendOk w h e = some r ∧
      r.calls = [InputRecord.mouse mi] ∧
      mi.dwFlags &&& MOUSEEVENTF_WHEEL ≠ 0 ∧
      mi.mouseData = (e.amount : Int) * e.rotation * WHEEL_DELTA := by
  have hdx := convert_some (c := e.x) hw
  have hdy := convert_some (c := e.y) hh
  rw [hook_mouse_eq resolve sendOk w h e _ _ (Or.inr (Or.inr (Or.inl he))) hdx hdy,
    applyEventFlags_wheel e _ he]
  exact ⟨_, _, rfl, rfl, by dsimp only; decide, rfl⟩

/-- C5 witness: the theorem applied at amount = 1, rotation = -1 (auxiliary
data -120) and at amount = 3, rotation = 1 (auxiliary data 360). -/
theorem C5_witness :
    (∃ r mi, hook_post_event (fun k => k) true true 100 100
        ⟨.mouseWheel, 0, 0, 10, 20, 0, 1, -1⟩ = some r ∧
      r.calls = [InputRecord.mouse mi] ∧
      mi.dwFlags &&& MOUSEEVENTF_WHEEL ≠ 0 ∧ mi.mouseData = -120) ∧
    (∃ r mi, hook_post_event (fun k => k) true true 100 100
        ⟨.mouseWheel, 0, 0, 10, 20, 0, 3, 1⟩ = some r ∧
      r.calls = [InputRecord.mouse mi] ∧ mi.mouseData = 360) := by
  constructor
  · obtain ⟨r, mi, h1, h2, h3, h4⟩ := C5_wheel_scroll (fun k => k) true 100 100
      ⟨.mouseWheel, 0, 0, 10, 20, 0, 1, -1⟩ (by decide) (by decide) rfl
    exact ⟨r, mi, h1, h2, h3, by rw [h4]; decide⟩
  · obtain ⟨r, mi, h1, h2, _, h4⟩ := C5_wheel_scroll (fun k => k) true 100 100
      ⟨.mouseWheel, 0, 0, 10, 20, 0, 3, 1⟩ (by decide) (by decide) rfl
    exact ⟨r, mi, h1, h2, by rw [h4]; decide⟩

/-- C10: a MouseMoved and a MouseDragged event with the same coordinates (and
the same screen geometry, resolver and environment outcomes) produce
identical hook behaviour — in particular identical native records — and the
record sets exactly the absolute-positioning and move flags with the
normalized coordinates, with no additional flag distinguishing drag from
move. -/
theorem C10_move_drag_identical (resolve : Nat → Nat) (allocOk sendOk : Bool)
    (w h : Nat) (mask keycode : Nat) (x y : Int) (button amount : Nat)
    (rotation : Int) :
    hook_post_event resolve allocOk sendOk w h
        ⟨.mouseMoved, mask, keycode, x, y, button, amount, rotation⟩ =
      hook_post_event resolve allocOk sendOk w h
        ⟨.mouseDragged, mask, keycode, x, y, button, amount, rotation⟩ ∧
    (allocOk = true → w ≠ 0 → h ≠ 0 →
      ∀ dx dy, convert_to_relative_position x w = some dx →
        convert_to_relative_position y h = some dy →
        hook_post_event resolve allocOk sendOk w h
            ⟨.mouseMoved, mask, keycode, x, y, button, amount, rotation⟩ =
          some ⟨(if sendOk then [] else [LogEntry.errorSendInputFailure]),
                [InputRecord.mouse ⟨dx, dy, 0,
                  MOUSEEVENTF_ABSOLUTE ||| MOUSEEVENTF_MOVE, 0⟩]⟩) := by
  constructor
  · cases allocOk with
    | false => simp [hook_post_event, classifyAndBuild]
    | true =>
      cases hx : convert_to_relative_position x w with
      | none => simp [hook_post_event, classifyAndBuild, hx]
      | some dx =>
        cases hy : convert_to_relative_position y h with
        | none => simp [hook_post_event, classifyAndBuild, hx, hy]
        | some dy => simp [hook_post_event, classifyAndBuild, applyEventFlags, hx, hy]
  · rintro rfl hw hh dx dy hdx hdy
    rw [hook_mouse_eq resolve sendOk w h _ dx dy
      (Or.inr (Or.inr (Or.inr (Or.inl rfl)))) hdx hdy]
    simp [applyEventFlags]

/-- C10 witness: the theorem applied at coordinates (10, 20) on a 100 x 100
screen; both components are instantiated and every hypothesis discharged on
the concrete input. -/
theorem C10_witness :
    hook_post_event (fun k => k) true true 100 100
        ⟨.mouseMoved, 0, 0, 10, 20, 0, 0, 0⟩ =
      hook_post_event (fun k => k) true true 100 100
        ⟨.mouseDragged, 0, 0, 10, 20, 0, 0, 0⟩ ∧
    hook_post_event (fun k => k) true true 100 100
        ⟨.mouseMoved, 0, 0, 10, 20, 0, 0, 0⟩ =
      some ⟨[], [InputRecord.mouse ⟨6554, 13108, 0,
        MOUSEEVENTF_ABSOLUTE ||| MOUSEEVENTF_MOVE, 0⟩]⟩ :=
  ⟨(C10_move_drag_identical (fun k => k) true true 100 100 0 0 10 20 0 0 0).1,
   (C10_move_drag_identical (fun k => k) true true 100 100 0 0 10 20 0 0 0).2
     rfl (by decide) (by decide) 6554 13108 (by decide) (by decide)⟩

end LibUIOHook
